import Mathlib

/-!
Verification of the read-through cache worker (src/src/index.ts).

The handler is embedded as a pure function over an explicit description of
the outside world: the result of the single object-store read, the outcome
of the single upstream HTTP fetch, and whether the object-store write would
throw. The handler returns the HTTP response it would produce together with
a trace of the store keys it read and wrote and the upstream URLs it
fetched, so that claims about which side effects occur are statable.
-/

namespace Worker

/-- JavaScript whitespace characters skipped by parseInt (ASCII subset). -/
def isJsWhitespace (c : Char) : Bool :=
  c = ' ' || c = '\t' || c = '\n' || c = '\r' || c = '\x0b' || c = '\x0c'

/-- Value of a decimal digit character, none if not a decimal digit. -/
def decDigitVal (c : Char) : Option Nat :=
  if '0' ≤ c ∧ c ≤ '9' then some (c.toNat - '0'.toNat) else none

/-- Value of a hexadecimal digit character, none if not a hex digit. -/
def hexDigitVal (c : Char) : Option Nat :=
  if '0' ≤ c ∧ c ≤ '9' then some (c.toNat - '0'.toNat)
  else if 'a' ≤ c ∧ c ≤ 'f' then some (c.toNat - 'a'.toNat + 10)
  else if 'A' ≤ c ∧ c ≤ 'F' then some (c.toNat - 'A'.toNat + 10)
  else none

/-- Accumulate the value of the longest leading run of digits; none when
the run is empty, mirroring parseInt returning NaN when no digit is read. -/
def parseDigits (dv : Char → Option Nat) (radix : Nat) :
    List Char → Option Nat → Option Nat
  | [], acc => acc
  | c :: cs, acc =>
    match dv c with
    | some d => parseDigits dv radix cs (some ((acc.getD 0) * radix + d))
    | none => acc

/-- Model of JavaScript parseInt(s) with no radix argument: skip leading
whitespace, read an optional sign, detect a 0x/0X hex marker, then read
the longest run of digits; none models NaN. -/
def jsParseInt (s : String) : Option Int :=
  let cs := s.data.dropWhile isJsWhitespace
  let signAndRest : Int × List Char :=
    match cs with
    | '-' :: rest => (-1, rest)
    | '+' :: rest => (1, rest)
    | _ => (1, cs)
  let sign := signAndRest.1
  match signAndRest.2 with
  | '0' :: 'x' :: rest =>
    (parseDigits hexDigitVal 16 rest none).map (fun n => sign * (n : Int))
  | '0' :: 'X' :: rest =>
    (parseDigits hexDigitVal 16 rest none).map (fun n => sign * (n : Int))
  | other =>
    (parseDigits decDigitVal 10 other none).map (fun n => sign * (n : Int))

/-- A stored object as read back from the R2 bucket: its body and the
upload timestamp in milliseconds (object.uploaded.getTime()). -/
structure R2ObjectInfo where
  body : String
  uploadedTime : Int
deriving DecidableEq

/-- Outcome of env.MY_BUCKET.get(cacheKey): the call may throw, return
null, or return a stored object. -/
inductive GetResult where
  | throws : GetResult
  | absent : GetResult
  | found : R2ObjectInfo → GetResult
deriving DecidableEq

/-- Outcome of the upstream fetch: the network call may throw, the
response may carry a non-success HTTP status (which the code converts to a
thrown error), the body may fail JSON parsing, or parsing succeeds. The
payload of ok is the JSON serialization of the parsed data. -/
inductive UpstreamResult where
  | networkError : UpstreamResult
  | httpError : Nat → UpstreamResult
  | badJson : UpstreamResult
  | ok : String → UpstreamResult
deriving DecidableEq

/-- Everything the outside world decides during one request. -/
structure WorldOutcome where
  getResult : GetResult
  upstream : UpstreamResult
  putThrows : Bool
deriving DecidableEq

/-- The parts of the inbound request the handler looks at: the HTTP method
and the two query parameters as returned by url.searchParams.get (none
models null for an absent parameter). -/
structure Request where
  method : String
  userid : Option String
  max_results : Option String
deriving DecidableEq

/-- An HTTP response: status, headers in construction order, body text. -/
structure HttpResponse where
  status : Nat
  headers : List (String × String)
  body : String
deriving DecidableEq

/-- Trace of the side effects one invocation performs: store keys read,
upstream URLs fetched, store keys written, each in order. -/
structure Trace where
  getKeys : List String
  upstreamUrls : List String
  putKeys : List String
deriving DecidableEq

/-- The corsHeaders constant from the source. -/
def corsHeaders : List (String × String) :=
  [("Access-Control-Allow-Origin", "*"),
   ("Access-Control-Allow-Methods", "GET,HEAD,POST,OPTIONS"),
   ("Access-Control-Max-Age", "86400")]

/-- The respond helper: a JSON response whose body is the serialized
payload; an omitted status code defaults to 200. -/
def respond (body : String) (code : Option Nat) : HttpResponse :=
  { status := code.getD 200,
    headers := ("content-type", "application/json") :: corsHeaders,
    body := body }

/-- A 200 response built directly from a stored body (cache hit and
stale-fallback paths both use this construction in the source). -/
def cachedResponse (body : String) : HttpResponse :=
  { status := 200,
    headers := ("content-type", "application/json") :: corsHeaders,
    body := body }

/-- The 405 response produced by the method gate. -/
def methodNotAllowed : HttpResponse :=
  { status := 405, headers := [("Allow", "GET")], body := "Method Not Allowed" }

/-- Default userid when the parameter is absent or empty. -/
def defaultUserid : String := "1472197491844026370"

/-- userid derivation: url.searchParams.get falls back through the
JavaScript or-operator, so null and the empty string both default. -/
def deriveUserid (p : Option String) : String :=
  match p with
  | none => defaultUserid
  | some s => if s = "" then defaultUserid else s

/-- max_results derivation: null and empty string fall back to the string
"6"; then parseInt, with NaN and 0 both falsy and so replaced by 6. -/
def deriveMaxResults (p : Option String) : Int :=
  let param :=
    match p with
    | none => "6"
    | some s => if s = "" then "6" else s
  match jsParseInt param with
  | none => 6
  | some n => if n = 0 then 6 else n

/-- Cache key derivation: the userid followed by ".json". -/
def cacheKeyOf (userid : String) : String := userid ++ ".json"

/-- Freshness window in milliseconds (901_000 in the source). -/
def FRESHNESS_WINDOW_MS : Int := 901000

/-- The object the code works with after the guarded store read: a thrown
read and a null result both leave the local variable null. -/
def readObject (g : GetResult) : Option R2ObjectInfo :=
  match g with
  | .throws => none
  | .absent => none
  | .found o => some o

/-- The condition guarding the refresh path: object missing, or uploaded
strictly before now minus the freshness window. -/
def isStale (o : Option R2ObjectInfo) (now : Int) : Bool :=
  match o with
  | none => true
  | some e => decide (e.uploadedTime < now - FRESHNESS_WINDOW_MS)

/-- The upstream request URL built from the userid and size limit. -/
def twitterUrlOf (userid : String) (max_results : Int) : String :=
  "https://api.twitter.com/2/users/" ++ userid ++ "/tweets?max_results=" ++
    toString max_results ++
    "&tweet.fields=created_at,entities,public_metrics&expansions=author_id&user.fields=profile_image_url,username"

/-- Body of the 500 response when the fetch fails with no cache. -/
def fetchErrorBody : String :=
  "\x7b\"error\":\"Failed to fetch data and no cache available\"\x7d"

/-- Body of the 500 response when JSON parsing fails with no cache. -/
def parseErrorBody : String :=
  "\x7b\"error\":\"Failed to parse response and no cache available\"\x7d"

/-- The refresh path (cache miss or stale entry): fetch upstream, fall
back to the stale object on any failure, otherwise attempt the store
write (its outcome is ignored) and return the fresh data. -/
def refreshOutcome (object : Option R2ObjectInfo) (cacheKey twitterUrl : String)
    (up : UpstreamResult) : HttpResponse × Trace :=
  match up with
  | .networkError =>
    match object with
    | some e =>
      (cachedResponse e.body,
       { getKeys := [cacheKey], upstreamUrls := [twitterUrl], putKeys := [] })
    | none =>
      (respond fetchErrorBody (some 500),
       { getKeys := [cacheKey], upstreamUrls := [twitterUrl], putKeys := [] })
  | .httpError _ =>
    match object with
    | some e =>
      (cachedResponse e.body,
       { getKeys := [cacheKey], upstreamUrls := [twitterUrl], putKeys := [] })
    | none =>
      (respond fetchErrorBody (some 500),
       { getKeys := [cacheKey], upstreamUrls := [twitterUrl], putKeys := [] })
  | .badJson =>
    match object with
    | some e =>
      (cachedResponse e.body,
       { getKeys := [cacheKey], upstreamUrls := [twitterUrl], putKeys := [] })
    | none =>
      (respond parseErrorBody (some 500),
       { getKeys := [cacheKey], upstreamUrls := [twitterUrl], putKeys := [] })
  | .ok data =>
    (respond data none,
     { getKeys := [cacheKey], upstreamUrls := [twitterUrl], putKeys := [cacheKey] })

/-- The fetch handler of src/src/index.ts as a pure function of the
request, the world outcome and the current time in milliseconds. -/
def fetch (req : Request) (w : WorldOutcome) (now : Int) : HttpResponse × Trace :=
  if req.method ≠ "GET" then
    (methodNotAllowed, { getKeys := [], upstreamUrls := [], putKeys := [] })
  else
    let userid := deriveUserid req.userid
    let max_results := deriveMaxResults req.max_results
    let cacheKey := cacheKeyOf userid
    let twitterUrl := twitterUrlOf userid max_results
    match readObject w.getResult with
    | none => refreshOutcome none cacheKey twitterUrl w.upstream
    | some e =>
      if e.uploadedTime < now - FRESHNESS_WINDOW_MS then
        refreshOutcome (some e) cacheKey twitterUrl w.upstream
      else
        (cachedResponse e.body,
         { getKeys := [cacheKey], upstreamUrls := [], putKeys := [] })

/-- An upstream outcome counted as a failure by the source: a thrown
network call, a non-success HTTP status, or an unparsable body. -/
def upstreamFailed (up : UpstreamResult) : Bool :=
  match up with
  | .networkError => true
  | .httpError _ => true
  | .badJson => true
  | .ok _ => false

end Worker
namespace Worker

/-- Helper: appending ".json" is injective, so distinct userids give
distinct cache keys. -/
theorem cacheKeyOf_inj (a b : String) (h : a ≠ b) : cacheKeyOf a ≠ cacheKeyOf b := by
  intro he
  apply h
  simp only [cacheKeyOf] at he
  have hd : (a ++ ".json").data = (b ++ ".json").data := by rw [he]
  rw [String.data_append, String.data_append] at hd
  exact String.ext (List.append_cancel_right hd)

/-- Helper: every GET invocation reads exactly the key derived from the
userid parameter. -/
theorem fetch_getKeys (req : Request) (w : WorldOutcome) (now : Int)
    (h : req.method = "GET") :
    (Worker.fetch req w now).2.getKeys = [cacheKeyOf (deriveUserid req.userid)] := by
  simp only [Worker.fetch, h, ne_eq, not_true_eq_false, if_false]
  cases hg : readObject w.getResult with
  | none =>
    cases w.upstream <;> simp [refreshOutcome]
  | some e =>
    by_cases hs : e.uploadedTime < now - FRESHNESS_WINDOW_MS
    · simp only [hg, if_pos hs]
      cases w.upstream <;> simp [refreshOutcome]
    · simp [hg, if_neg hs]

/-- Helper: the handler reads the request only through its method, the
derived userid and the derived size limit. -/
theorem fetch_congr (req₁ req₂ : Request) (w : WorldOutcome) (now : Int)
    (hm : req₁.method = req₂.method)
    (hu : deriveUserid req₁.userid = deriveUserid req₂.userid)
    (hr : deriveMaxResults req₁.max_results = deriveMaxResults req₂.max_results) :
    Worker.fetch req₁ w now = Worker.fetch req₂ w now := by
  simp only [Worker.fetch, hm, hu, hr]

end Worker
namespace Worker

/-- Claim C1: for every GET request the cache key read is the userid
followed by ".json"; it is a function of the userid alone, unchanged by
the max_results parameter, the world or the time; and distinct userids
always derive distinct keys. -/
theorem c1_cache_key_derivation (req : Request) (w : WorldOutcome) (now : Int)
    (hm : req.method = "GET") :
    (Worker.fetch req w now).2.getKeys = [cacheKeyOf (deriveUserid req.userid)] ∧
    (∀ m₁ m₂ : Option String, ∀ w₁ w₂ : WorldOutcome, ∀ n₁ n₂ : Int,
      (Worker.fetch { req with max_results := m₁ } w₁ n₁).2.getKeys =
        (Worker.fetch { req with max_results := m₂ } w₂ n₂).2.getKeys) ∧
    (∀ a b : String, a ≠ b → cacheKeyOf a ≠ cacheKeyOf b) := by
  refine ⟨fetch_getKeys req w now hm, ?_, cacheKeyOf_inj⟩
  intro m₁ m₂ w₁ w₂ n₁ n₂
  rw [fetch_getKeys { req with max_results := m₁ } w₁ n₁ hm,
    fetch_getKeys { req with max_results := m₂ } w₂ n₂ hm]

/-- Witness for claim C1 at a concrete GET request. -/
theorem c1_cache_key_derivation_witness :
    (Worker.fetch ⟨"GET", some "42", some "3"⟩
        ⟨.absent, .ok "d", false⟩ 0).2.getKeys = [cacheKeyOf (deriveUserid (some "42"))] ∧
    (∀ m₁ m₂ : Option String, ∀ w₁ w₂ : WorldOutcome, ∀ n₁ n₂ : Int,
      (Worker.fetch ⟨"GET", some "42", m₁⟩ w₁ n₁).2.getKeys =
        (Worker.fetch ⟨"GET", some "42", m₂⟩ w₂ n₂).2.getKeys) ∧
    (∀ a b : String, a ≠ b → cacheKeyOf a ≠ cacheKeyOf b) :=
  c1_cache_key_derivation ⟨"GET", some "42", some "3"⟩ ⟨.absent, .ok "d", false⟩ 0 rfl

/-- Claim C5: a non-GET request gets the 405 response with header
Allow: GET and the handler performs no store reads, no upstream calls and
no store writes. -/
theorem c5_method_gate (req : Request) (w : WorldOutcome) (now : Int)
    (h : req.method ≠ "GET") :
    Worker.fetch req w now =
      (methodNotAllowed, { getKeys := [], upstreamUrls := [], putKeys := [] }) ∧
    methodNotAllowed.status = 405 ∧
    methodNotAllowed.headers = [("Allow", "GET")] := by
  refine ⟨?_, rfl, rfl⟩
  simp [Worker.fetch, h]

/-- Witness for claim C5 on a POST request. -/
theorem c5_method_gate_witness :
    Worker.fetch ⟨"POST", none, none⟩ ⟨.absent, .ok "d", false⟩ 0 =
      (methodNotAllowed, { getKeys := [], upstreamUrls := [], putKeys := [] }) ∧
    methodNotAllowed.status = 405 ∧
    methodNotAllowed.headers = [("Allow", "GET")] :=
  c5_method_gate ⟨"POST", none, none⟩ ⟨.absent, .ok "d", false⟩ 0 (by decide)

/-- Claim C6: when the store read throws, a GET request is handled
exactly as when the key is absent, and the upstream fetch is attempted. -/
theorem c6_store_read_failure (req : Request) (up : UpstreamResult) (pt : Bool) (now : Int)
    (hm : req.method = "GET") :
    Worker.fetch req ⟨.throws, up, pt⟩ now = Worker.fetch req ⟨.absent, up, pt⟩ now ∧
    (Worker.fetch req ⟨.throws, up, pt⟩ now).2.upstreamUrls =
      [twitterUrlOf (deriveUserid req.userid) (deriveMaxResults req.max_results)] := by
  constructor
  · rfl
  · simp only [Worker.fetch, hm, ne_eq, not_true_eq_false, if_false, readObject]
    cases up <;> simp [refreshOutcome]

/-- Witness for claim C6 at a concrete GET request. -/
theorem c6_store_read_failure_witness :
    Worker.fetch ⟨"GET", some "u", none⟩ ⟨.throws, .ok "d", false⟩ 7 =
      Worker.fetch ⟨"GET", some "u", none⟩ ⟨.absent, .ok "d", false⟩ 7 ∧
    (Worker.fetch ⟨"GET", some "u", none⟩ ⟨.throws, .ok "d", false⟩ 7).2.upstreamUrls =
      [twitterUrlOf (deriveUserid (some "u")) (deriveMaxResults none)] :=
  c6_store_read_failure ⟨"GET", some "u", none⟩ (.ok "d") false 7 rfl

/-- Claim C9: a cache entry whose upload timestamp lies strictly in the
future is treated as fresh: the GET request is served from cache and no
upstream call is made. -/
theorem c9_future_timestamp_fresh (req : Request) (e : R2ObjectInfo)
    (w : WorldOutcome) (now : Int)
    (hm : req.method = "GET") (hg : w.getResult = .found e)
    (hf : now < e.uploadedTime) :
    Worker.fetch req w now =
      (cachedResponse e.body,
       { getKeys := [cacheKeyOf (deriveUserid req.userid)],
         upstreamUrls := [], putKeys := [] }) := by
  have hwin : FRESHNESS_WINDOW_MS = 901000 := rfl
  have hns : ¬ (e.uploadedTime < now - FRESHNESS_WINDOW_MS) := by omega
  simp [Worker.fetch, hm, readObject, hg, hns]

/-- Witness for claim C9 with an entry dated one millisecond ahead. -/
theorem c9_future_timestamp_fresh_witness :
    Worker.fetch ⟨"GET", some "u", none⟩
        ⟨.found ⟨"cached", 101⟩, .ok "fresh", false⟩ 100 =
      (cachedResponse "cached",
       { getKeys := [cacheKeyOf (deriveUserid (some "u"))],
         upstreamUrls := [], putKeys := [] }) :=
  c9_future_timestamp_fresh ⟨"GET", some "u", none⟩ ⟨"cached", 101⟩
    ⟨.found ⟨"cached", 101⟩, .ok "fresh", false⟩ 100 rfl rfl (by decide)

end Worker
namespace Worker

/-- Counterexample to claim C2: at an age of exactly 901 seconds
(now = 901000 ms, uploadedAt = 0 ms) the claim demands an upstream fetch,
but the handler makes no upstream call and serves the cached body. -/
theorem c2_counterexample :
    ¬ ((901000 : Int) - 0 < 901000) ∧
    (Worker.fetch ⟨"GET", some "u", none⟩
        ⟨.found ⟨"cached", 0⟩, .ok "fresh", false⟩ 901000).2.upstreamUrls = [] ∧
    (Worker.fetch ⟨"GET", some "u", none⟩
        ⟨.found ⟨"cached", 0⟩, .ok "fresh", false⟩ 901000).1 =
      cachedResponse "cached" := by
  refine ⟨by decide, rfl, rfl⟩

/-- Claim C2 amended: an existing entry is served from cache with no
upstream call exactly when now - uploadedAt is at most 901 seconds, and
the upstream fetch is triggered exactly when now - uploadedAt exceeds
901 seconds. -/
theorem c2_freshness_boundary (req : Request) (e : R2ObjectInfo)
    (w : WorldOutcome) (now : Int)
    (hm : req.method = "GET") (hg : w.getResult = .found e) :
    (now - e.uploadedTime ≤ FRESHNESS_WINDOW_MS →
      Worker.fetch req w now =
        (cachedResponse e.body,
         { getKeys := [cacheKeyOf (deriveUserid req.userid)],
           upstreamUrls := [], putKeys := [] })) ∧
    (FRESHNESS_WINDOW_MS < now - e.uploadedTime →
      (Worker.fetch req w now).2.upstreamUrls =
        [twitterUrlOf (deriveUserid req.userid) (deriveMaxResults req.max_results)]) := by
  constructor
  · intro hle
    have hns : ¬ (e.uploadedTime < now - FRESHNESS_WINDOW_MS) := by omega
    simp [Worker.fetch, hm, readObject, hg, hns]
  · intro hlt
    have hs : e.uploadedTime < now - FRESHNESS_WINDOW_MS := by omega
    simp only [Worker.fetch, hm, ne_eq, not_true_eq_false, if_false, readObject, hg,
      if_pos hs]
    cases w.upstream <;> simp [refreshOutcome]

/-- Witness for the amended claim C2: served from cache at exactly the
boundary age, upstream fetched one millisecond past it. -/
theorem c2_freshness_boundary_witness :
    Worker.fetch ⟨"GET", some "u", none⟩
        ⟨.found ⟨"cached", 0⟩, .ok "fresh", false⟩ 901000 =
      (cachedResponse "cached",
       { getKeys := [cacheKeyOf (deriveUserid (some "u"))],
         upstreamUrls := [], putKeys := [] }) ∧
    (Worker.fetch ⟨"GET", some "u", none⟩
        ⟨.found ⟨"cached", 0⟩, .ok "fresh", false⟩ 901001).2.upstreamUrls =
      [twitterUrlOf (deriveUserid (some "u")) (deriveMaxResults none)] :=
  ⟨(c2_freshness_boundary ⟨"GET", some "u", none⟩ ⟨"cached", 0⟩
      ⟨.found ⟨"cached", 0⟩, .ok "fresh", false⟩ 901000 rfl rfl).1 (by decide),
   (c2_freshness_boundary ⟨"GET", some "u", none⟩ ⟨"cached", 0⟩
      ⟨.found ⟨"cached", 0⟩, .ok "fresh", false⟩ 901001 rfl rfl).2 (by decide)⟩

/-- Claim C3: when the upstream fetch fails in any way and the store read
returned an entry of any age, the response is a 200 whose body is the
stored body unchanged. -/
theorem c3_stale_fallback (req : Request) (e : R2ObjectInfo)
    (w : WorldOutcome) (now : Int)
    (hm : req.method = "GET") (hg : w.getResult = .found e)
    (hf : upstreamFailed w.upstream = true) :
    (Worker.fetch req w now).1.status = 200 ∧
    (Worker.fetch req w now).1.body = e.body := by
  simp only [Worker.fetch, hm, ne_eq, not_true_eq_false, if_false, readObject, hg]
  by_cases hs : e.uploadedTime < now - FRESHNESS_WINDOW_MS
  · simp only [if_pos hs]
    cases hup : w.upstream with
    | ok d => rw [hup] at hf; simp [upstreamFailed] at hf
    | networkError => simp [refreshOutcome, cachedResponse]
    | httpError s => simp [refreshOutcome, cachedResponse]
    | badJson => simp [refreshOutcome, cachedResponse]
  · simp [if_neg hs, cachedResponse]

/-- Witness for claim C3 with a stale entry and a failing upstream. -/
theorem c3_stale_fallback_witness :
    (Worker.fetch ⟨"GET", some "u", none⟩
        ⟨.found ⟨"old", 0⟩, .httpError 429, false⟩ 2000000).1.status = 200 ∧
    (Worker.fetch ⟨"GET", some "u", none⟩
        ⟨.found ⟨"old", 0⟩, .httpError 429, false⟩ 2000000).1.body = "old" :=
  c3_stale_fallback ⟨"GET", some "u", none⟩ ⟨"old", 0⟩
    ⟨.found ⟨"old", 0⟩, .httpError 429, false⟩ 2000000 rfl rfl rfl

/-- Counterexample to claim C4: with no cache entry and an upstream body
that fails to parse, the response has status 500 but its body is the
parse-failure message, not the fetch-failure body the claim names. -/
theorem c4_counterexample :
    (Worker.fetch ⟨"GET", some "u", none⟩
        ⟨.absent, .badJson, false⟩ 0).1.status = 500 ∧
    (Worker.fetch ⟨"GET", some "u", none⟩
        ⟨.absent, .badJson, false⟩ 0).1.body ≠ fetchErrorBody := by
  refine ⟨rfl, by decide⟩

/-- Claim C4 amended: when the upstream fetch fails and no cache entry
exists, the response always has status 500; its body is the
fetch-failure JSON for network errors and non-success statuses, and the
parse-failure JSON for unparsable bodies. -/
theorem c4_terminal_error (req : Request) (w : WorldOutcome) (now : Int)
    (hm : req.method = "GET") (hg : readObject w.getResult = none)
    (hf : upstreamFailed w.upstream = true) :
    (Worker.fetch req w now).1.status = 500 ∧
    ((w.upstream = .networkError ∨ (∃ s, w.upstream = .httpError s)) →
      (Worker.fetch req w now).1.body = fetchErrorBody) ∧
    (w.upstream = .badJson →
      (Worker.fetch req w now).1.body = parseErrorBody) := by
  simp only [Worker.fetch, hm, ne_eq, not_true_eq_false, if_false, hg]
  cases hup : w.upstream with
  | ok d => rw [hup] at hf; simp [upstreamFailed] at hf
  | networkError => simp [refreshOutcome, respond]
  | httpError s => simp [refreshOutcome, respond]
  | badJson => simp [refreshOutcome, respond]

/-- Witness for the amended claim C4 with a network error and no cache. -/
theorem c4_terminal_error_witness :
    (Worker.fetch ⟨"GET", some "u", none⟩
        ⟨.absent, .networkError, false⟩ 0).1.status = 500 ∧
    (((⟨.absent, .networkError, false⟩ : WorldOutcome).upstream = .networkError ∨
       (∃ s, (⟨.absent, .networkError, false⟩ : WorldOutcome).upstream = .httpError s)) →
      (Worker.fetch ⟨"GET", some "u", none⟩
          ⟨.absent, .networkError, false⟩ 0).1.body = fetchErrorBody) ∧
    ((⟨.absent, .networkError, false⟩ : WorldOutcome).upstream = .badJson →
      (Worker.fetch ⟨"GET", some "u", none⟩
          ⟨.absent, .networkError, false⟩ 0).1.body = parseErrorBody) :=
  c4_terminal_error ⟨"GET", some "u", none⟩ ⟨.absent, .networkError, false⟩ 0 rfl rfl rfl

end Worker
namespace Worker

/-- Claim C7: on a cache miss or stale entry with a successful, parseable
upstream response, the caller receives the 200 JSON response carrying the
fresh data, the store write is attempted, and the outcome of that write
does not change the result in any way. -/
theorem c7_write_failure_invisible (req : Request) (w : WorldOutcome)
    (now : Int) (data : String)
    (hm : req.method = "GET")
    (hs : isStale (readObject w.getResult) now = true)
    (hup : w.upstream = .ok data) :
    (Worker.fetch req w now).1 = respond data none ∧
    (Worker.fetch req w now).1.status = 200 ∧
    (Worker.fetch req w now).1.body = data ∧
    (Worker.fetch req w now).2.putKeys = [cacheKeyOf (deriveUserid req.userid)] ∧
    (∀ b₁ b₂ : Bool,
      Worker.fetch req ⟨w.getResult, w.upstream, b₁⟩ now =
        Worker.fetch req ⟨w.getResult, w.upstream, b₂⟩ now) := by
  refine ⟨?_, ?_, ?_, ?_, fun b₁ b₂ => rfl⟩ <;>
  · simp only [Worker.fetch, hm, ne_eq, not_true_eq_false, if_false]
    cases hg : readObject w.getResult with
    | none => simp [refreshOutcome, hup, respond]
    | some e =>
      rw [hg] at hs
      simp only [isStale, decide_eq_true_eq] at hs
      simp [if_pos hs, refreshOutcome, hup, respond]

/-- Witness for claim C7 on an empty cache with a throwing write. -/
theorem c7_write_failure_invisible_witness :
    (Worker.fetch ⟨"GET", some "u", none⟩ ⟨.absent, .ok "fresh", true⟩ 0).1 =
      respond "fresh" none ∧
    (Worker.fetch ⟨"GET", some "u", none⟩ ⟨.absent, .ok "fresh", true⟩ 0).1.status = 200 ∧
    (Worker.fetch ⟨"GET", some "u", none⟩ ⟨.absent, .ok "fresh", true⟩ 0).1.body = "fresh" ∧
    (Worker.fetch ⟨"GET", some "u", none⟩ ⟨.absent, .ok "fresh", true⟩ 0).2.putKeys =
      [cacheKeyOf (deriveUserid (some "u"))] ∧
    (∀ b₁ b₂ : Bool,
      Worker.fetch ⟨"GET", some "u", none⟩ ⟨.absent, .ok "fresh", b₁⟩ 0 =
        Worker.fetch ⟨"GET", some "u", none⟩ ⟨.absent, .ok "fresh", b₂⟩ 0) :=
  c7_write_failure_invisible ⟨"GET", some "u", none⟩ ⟨.absent, .ok "fresh", true⟩ 0
    "fresh" rfl rfl rfl

/-- Claim C8: every GET request without a userid parameter, whatever its
max_results parameter, uses the default subject identifier and reads cache
key 1472197491844026370.json; independently, an absent or unparsable
max_results parameter yields the size limit 6. -/
theorem c8_parameter_defaults (w : WorldOutcome) (now : Int) (m mu : Option String)
    (hmu : ∀ s, mu = some s → jsParseInt s = none) :
    deriveUserid none = "1472197491844026370" ∧
    (Worker.fetch ⟨"GET", none, m⟩ w now).2.getKeys =
      ["1472197491844026370.json"] ∧
    deriveMaxResults mu = 6 := by
  refine ⟨rfl, ?_, ?_⟩
  · rw [fetch_getKeys ⟨"GET", none, m⟩ w now rfl]
    rfl
  · cases mu with
    | none => rfl
    | some s =>
      by_cases he : s = ""
      · subst he; rfl
      · simp [deriveMaxResults, he, hmu s rfl]

/-- Witness for claim C8: the default key is read even with a parsable
max_results of 3, and a non-numeric max_results yields the limit 6. -/
theorem c8_parameter_defaults_witness :
    deriveUserid none = "1472197491844026370" ∧
    (Worker.fetch ⟨"GET", none, some "3"⟩
        ⟨.absent, .ok "d", false⟩ 0).2.getKeys = ["1472197491844026370.json"] ∧
    deriveMaxResults (some "invalid") = 6 :=
  c8_parameter_defaults ⟨.absent, .ok "d", false⟩ 0 (some "3") (some "invalid")
    (by intro s hs; cases hs; decide)

/-- Claim C10: a max_results value parsing to 0 or NaN behaves exactly
like max_results=6, and an empty userid parameter behaves exactly like an
omitted one, for every world and time. -/
theorem c10_falsy_coercion (req : Request) (w : WorldOutcome) (now : Int)
    (s : String)
    (hs : jsParseInt s = some 0 ∨ jsParseInt s = none) :
    Worker.fetch { req with max_results := some s } w now =
      Worker.fetch { req with max_results := some "6" } w now ∧
    Worker.fetch { req with userid := some "" } w now =
      Worker.fetch { req with userid := none } w now := by
  constructor
  · apply fetch_congr <;> try rfl
    have h0 : deriveMaxResults (some s) = 6 := by
      by_cases he : s = ""
      · subst he; rfl
      · rcases hs with h | h <;> simp [deriveMaxResults, he, h]
    exact h0
  · apply fetch_congr <;> rfl

/-- Witness for claim C10 at max_results=0 and an empty userid. -/
theorem c10_falsy_coercion_witness :
    Worker.fetch ⟨"GET", some "u", some "0"⟩ ⟨.absent, .ok "d", false⟩ 5 =
      Worker.fetch ⟨"GET", some "u", some "6"⟩ ⟨.absent, .ok "d", false⟩ 5 ∧
    Worker.fetch ⟨"GET", some "", some "0"⟩ ⟨.absent, .ok "d", false⟩ 5 =
      Worker.fetch ⟨"GET", none, some "0"⟩ ⟨.absent, .ok "d", false⟩ 5 :=
  c10_falsy_coercion ⟨"GET", some "u", some "0"⟩ ⟨.absent, .ok "d", false⟩ 5 "0"
    (Or.inl (by decide))

end Worker
